import Mathlib

/-!
Shallow embedding of the `archivecli` package (URL validation, domain
blocklist, archive lookup service, and the top-level compositions in
`archive.py` and `cli.py`), together with theorems settling the frozen
claims about it.

Strings are modelled as `List Char`.  Network and filesystem effects are
modelled by passing the observed outcome (HTTP response, raised transport
exception, parsed config content) as an explicit argument; Python
exceptions become `Except` values whose constructors record the raising
module, since several modules define same-named exception classes.
-/

deriving instance DecidableEq for Except

namespace ArchiveCli

/-- Python strings, modelled as lists of characters. -/
abbrev Str := List Char

/-- ASCII lowering of one character (model of `str.lower` on the ASCII
inputs the tool deals with). -/
def toLowerS (s : Str) : Str := s.map Char.toLower

/-- `startsWithL p s` : `p` is a prefix of `s` (model of `str.startswith`). -/
def startsWithL : Str → Str → Bool
  | [], _ => true
  | _ :: _, [] => false
  | p :: ps, c :: cs => p == c && startsWithL ps cs

/-- `isSubstr n s` : `n` occurs as a contiguous substring of `s`
(model of the Python `in` operator on strings). -/
def isSubstr (needle : Str) : Str → Bool
  | [] => startsWithL needle []
  | c :: cs => startsWithL needle (c :: cs) || isSubstr needle cs

/-! ## Model of `urllib.parse.urlsplit` (scheme and netloc components)

Mirrors CPython: the scheme is the part before the first `:` when that
part is non-empty, begins with an ASCII letter and consists of scheme
characters, and is lowercased; the netloc is present exactly when the
remainder begins with `//`, extending to the next `/`, `?` or `#`;
`urlsplit` raises `ValueError` when the netloc has a `[` without `]` or
vice versa. -/

/-- Characters allowed in a URL scheme (CPython `scheme_chars`). -/
def isSchemeChar (c : Char) : Bool :=
  c.isAlpha || c.isDigit || c == '+' || c == '-' || c == '.'

/-- Split off the scheme: returns `(scheme, rest)`; scheme is `[]` when
the URL has none. -/
def splitScheme (u : Str) : Str × Str :=
  match u.findIdx? (fun c => c == ':') with
  | none => ([], u)
  | some i =>
    if 0 < i
        && (match u with | c :: _ => c.isAlpha | [] => false)
        && (u.take i).all isSchemeChar
    then (toLowerS (u.take i), u.drop (i + 1))
    else ([], u)

/-- The netloc: everything after a leading `//` up to the next
`/`, `?` or `#` (CPython `_splitnetloc`). -/
def takeNetloc (l : Str) : Str :=
  l.takeWhile (fun c => !(c == '/' || c == '?' || c == '#'))

/-- The bracket validity check `urlsplit` performs on the netloc. -/
def bracketBad (n : Str) : Bool :=
  (n.contains '[' && !n.contains ']') || (n.contains ']' && !n.contains '[')

/-- `urlsplit`, restricted to the `(scheme, netloc)` components the code
reads; `.error` models the `ValueError` raised on an unbalanced bracket
in the netloc. -/
def urlsplitE (u : Str) : Except Unit (Str × Str) :=
  let (scheme, rest) := splitScheme u
  if startsWithL ("//".toList) rest then
    let netloc := takeNetloc (rest.drop 2)
    if bracketBad netloc then .error () else .ok (scheme, netloc)
  else .ok (scheme, [])

/-! ## `validators.py` -/

/-- `validators.is_valid_scheme`: the parsed scheme is `http` or `https`;
a parse exception yields `false`. -/
def is_valid_scheme (u : Str) : Bool :=
  match urlsplitE u with
  | .error _ => false
  | .ok (scheme, _) => scheme == ("http".toList) || scheme == ("https".toList)

/-- `validators.is_well_formed_url`: parsing yields a non-empty scheme and
a non-empty netloc; a parse exception yields `false`. -/
def is_well_formed_url (u : Str) : Bool :=
  match urlsplitE u with
  | .error _ => false
  | .ok (scheme, netloc) => !scheme.isEmpty && !netloc.isEmpty

/-- Outcome of the `requests.head` reachability probe: either a response
(status code and final URL after redirects) or a raised transport
exception. -/
inductive HeadResult
  | resp (status : Nat) (finalUrl : Str)
  | timeout
  | redirects
  | ssl
  | reqFail (msg : Str)

/-- `validators.check_url_reachability`; the `.error` message is the one
carried by the raised `URLReachabilityError`. -/
def check_url_reachability (probe : HeadResult) : Except Str (Str × Bool) :=
  match probe with
  | .resp status finalUrl =>
    if status = 200 then .ok (finalUrl, true)
    else if status = 403 then .error ("Access forbidden".toList)
    else if status = 404 then .error ("Page not found".toList)
    else if 500 ≤ status then .error ("Server error occurred".toList)
    else .error (("Unexpected status code: ".toList) ++ (Nat.repr status).toList)
  | .timeout => .error ("Request timed out".toList)
  | .redirects => .error ("Too many redirects".toList)
  | .ssl => .error ("SSL verification failed".toList)
  | .reqFail m => .error (("Request failed: ".toList) ++ m)

/-! ## `domain_blocker.py` -/

/-- `DomainBlocker.DEFAULT_BLOCKED_DOMAINS` (a Python set literal). -/
def DEFAULT_BLOCKED_DOMAINS : Finset Str :=
  (([("facebook.com".toList), ("twitter.com".toList), ("instagram.com".toList),
     ("linkedin.com".toList), ("accounts.google.com".toList),
     ("login.yahoo.com".toList)] : List Str)).toFinset

/-- `DomainBlocker.is_domain_blocked`: lowercase the netloc, strip one
leading `www.`, and test whether any blocklist entry is a substring; a
parse exception from `urlparse` is re-raised as `DomainBlockerError`
(modelled by `.error` with its message). -/
def is_domain_blocked (blocked : Finset Str) (url : Str) : Except Str Bool :=
  match urlsplitE url with
  | .error _ => .error ("Failed to parse URL: Invalid IPv6 URL".toList)
  | .ok (_, netloc) =>
    let domain := toLowerS netloc
    let domain := if startsWithL ("www.".toList) domain then domain.drop 4 else domain
    .ok (decide (∃ e ∈ blocked, isSubstr e domain = true))

/-- `DomainBlocker.add_blocked_domain`. -/
def add_blocked_domain (s : Finset Str) (d : Str) : Finset Str :=
  insert (toLowerS d) s

/-- `DomainBlocker.remove_blocked_domain`, as explicit state passing:
`set.remove` raises `KeyError` when the key is absent, re-raised as
`DomainBlockerError`; on that path the set is left as it was. -/
def remove_blocked_domain (s : Finset Str) (d : Str) : Option Str × Finset Str :=
  if toLowerS d ∈ s
  then (none, s.erase (toLowerS d))
  else (some (("Domain ".toList) ++ d ++ (" is not in the blocked list".toList)), s)

/-- `DomainBlocker.get_blocked_domains` (returns a copy of the set). -/
def get_blocked_domains (s : Finset Str) : Finset Str := s

/-- The blocked-domain set of a fresh `DomainBlocker()` constructed with no
config path: a copy of the defaults. -/
def freshBlocker : Finset Str := DEFAULT_BLOCKED_DOMAINS

/-- `DomainBlocker.save_config`: writes `list(self.blocked_domains)` under
the `blocked_domains` key as JSON.  The file content is modelled as the
set of domain strings the JSON array holds (the array order is
unspecified set-iteration order, and the reader turns it back into a
set), so serialization is the identity on the set. -/
def save_config (s : Finset Str) : Finset Str := s

/-- `DomainBlocker.load_config` on a successfully parsed file: the parsed
domains are added to the existing set with `set.update`. -/
def load_config (s : Finset Str) (file : Finset Str) : Finset Str := s ∪ file

/-- Exceptions `validators.validate_url_with_reachability` can raise:
the module-local classes `URLValidationError` and `URLReachabilityError`
defined in `validators.py`, and a `DomainBlockerError` propagating out of
`is_domain_blocked`. -/
inductive VErr
  | validation (msg : Str)
  | reachability (msg : Str)
  | blockerErr (msg : Str)
deriving DecidableEq

/-- The guard `if domain_blocker and domain_blocker.is_domain_blocked(url)`
of `validate_url_with_reachability`: with a blocker present, a parse
failure propagates and a blocked domain raises the validation error. -/
def blockStep (blocker : Option (Finset Str)) (url : Str) : Except VErr Unit :=
  match blocker with
  | none => .ok ()
  | some b =>
    match is_domain_blocked b url with
    | .error m => .error (.blockerErr m)
    | .ok true => .error (.validation ("Domain is blocked".toList))
    | .ok false => .ok ()

/-- The final two lines of `validate_url_with_reachability`: run the
reachability check and return the final URL it reports. -/
def reachStep (probe : HeadResult) : Except VErr Str :=
  match check_url_reachability probe with
  | .error m => .error (.reachability m)
  | .ok (finalUrl, _reachable) => .ok finalUrl

/-- `validators.validate_url_with_reachability`: well-formedness, scheme,
optional blocklist check, then the reachability probe; returns the final
URL the probe reports after redirects. -/
def validate_url_with_reachability (url : Str) (blocker : Option (Finset Str))
    (probe : HeadResult) : Except VErr Str :=
  if is_well_formed_url url = false then
    .error (.validation ("Invalid URL format".toList))
  else if is_valid_scheme url = false then
    .error (.validation ("URL must start with http:// or https://".toList))
  else
    match blockStep blocker url with
    | .error e => .error e
    | .ok _ => reachStep probe

/-- `validators.validate_url` (scheme-first variant, not used by the
pipeline): empty check, then scheme, then well-formedness. -/
def validate_url (url : Str) : Except VErr Str :=
  if url.isEmpty then .error (.validation ("URL cannot be empty".toList))
  else if is_valid_scheme url = false then
    .error (.validation ("URL must start with http:// or https://".toList))
  else if is_well_formed_url url = false then
    .error (.validation ("URL is not well-formed".toList))
  else .ok url

/-! ## `archive_service.py` -/

/-- One uppercase hex digit (as used by `urllib.parse.quote`). -/
def hexDigit (n : Nat) : Char :=
  if n < 10 then Char.ofNat (48 + n) else Char.ofNat (55 + n)

/-- UTF-8 bytes of a code point, as natural numbers. -/
def utf8Bytes (n : Nat) : List Nat :=
  if n < 128 then [n]
  else if n < 2048 then [192 + n / 64, 128 + n % 64]
  else if n < 65536 then [224 + n / 4096, 128 + (n / 64) % 64, 128 + n % 64]
  else [240 + n / 262144, 128 + (n / 4096) % 64, 128 + (n / 64) % 64, 128 + n % 64]

/-- Percent-encoding of one byte: `%XX` with uppercase hex. -/
def pctByte (b : Nat) : Str := ['%', hexDigit (b / 16), hexDigit (b % 16)]

/-- `urllib.parse.quote(url, safe='')`: every character outside the
always-safe set (ASCII alphanumerics and `_.-~`) is UTF-8 encoded and
percent-escaped. -/
def quoteSafeEmpty (s : Str) : Str :=
  (s.map (fun c =>
    if c.isAlpha || c.isDigit || c == '_' || c == '.' || c == '-' || c == '~'
    then [c]
    else ((utf8Bytes c.toNat).map pctByte).flatten)).flatten

/-- `ArchiveService.construct_search_url`:
`urljoin("https://archive.is/", "submit/?url=" + quote(url, safe=''))`.
The relative reference is a plain path segment plus query whose characters
are unreserved or percent escapes, so the join is the concatenation below. -/
def construct_search_url (url : Str) : Str :=
  ("https://archive.is/submit/?url=".toList) ++ quoteSafeEmpty url

/-- Exceptions raised by `ArchiveService` (all subclasses of
`exceptions.ArchiveServiceError`). -/
inductive SvcErr
  | notFound (msg : Str)
  | unavailable (msg : Str)
  | creation (msg : Str)
  | service (msg : Str)
deriving DecidableEq

/-- Outcome of the `requests.get` call against the search URL: a response
(status, final URL after redirects) or a raised `RequestException`. -/
inductive HttpResult
  | resp (status : Nat) (finalUrl : Str)
  | reqError (msg : Str)

/-- `ArchiveService.get_latest_archive`: on HTTP 200 the final URL is the
archive exactly when it contains the substring `archive.is/` and differs
from the constructed search URL; otherwise the status-code ladder below. -/
def get_latest_archive (url : Str) (r : HttpResult) : Except SvcErr Str :=
  let searchUrl := construct_search_url url
  match r with
  | .reqError m =>
    .error (.service (("Failed to communicate with archive.is: ".toList) ++ m))
  | .resp status finalUrl =>
    if status = 200 then
      if isSubstr ("archive.is/".toList) finalUrl && finalUrl ≠ searchUrl
      then .ok finalUrl
      else .error (.notFound ("No archived version found".toList))
    else if status = 404 then
      .error (.notFound ("No archived version found".toList))
    else if 500 ≤ status then
      .error (.unavailable
        ("Archive.is service is temporarily unavailable. Please try again later.".toList))
    else
      .error (.service
        (("Received unexpected response from archive.is (status code: ".toList)
          ++ (Nat.repr status).toList
          ++ ("). Please try again or report this issue if it persists.".toList)))

/-- The message of the `ArchiveCreationError` raised by
`get_or_create_archive`. -/
def creationMsg : Str :=
  ("Archive creation is not yet implemented. Please try again later when this feature becomes available.".toList)

/-- `ArchiveService.get_or_create_archive`: delegate to
`get_latest_archive`; only `ArchiveNotFoundError` is caught and re-raised
as `ArchiveCreationError`. -/
def get_or_create_archive (url : Str) (r : HttpResult) : Except SvcErr Str :=
  match get_latest_archive url r with
  | .error (.notFound _) => .error (.creation creationMsg)
  | other => other

/-! ## `browser_handler.py` -/

/-- `browser_handler.validate_url`: non-empty scheme and netloc. -/
def browser_validate_url (u : Str) : Bool :=
  match urlsplitE u with
  | .error _ => false
  | .ok (scheme, netloc) => !scheme.isEmpty && !netloc.isEmpty

/-- Outcome of the `webbrowser` call inside `open_url_in_browser`. -/
inductive WebOutcome
  | opened
  | notOpened
  | wbError (msg : Str)
  | otherExc (msg : Str)

/-- `browser_handler.open_url_in_browser`: pre-check the URL, then launch;
`.error` models a raised `browser_handler.BrowserError` with its message. -/
def open_url_in_browser (url : Str) (w : WebOutcome) : Except Str (Bool × Str) :=
  if browser_validate_url url = false then .ok (false, ("Invalid URL format".toList))
  else
    match w with
    | .opened => .ok (true, ("URL opened successfully".toList))
    | .notOpened => .ok (false, ("Failed to open URL".toList))
    | .wbError m => .error (("Browser error: ".toList) ++ m)
    | .otherExc m => .error (("Unexpected error opening URL: ".toList) ++ m)

/-! ## `archive.py` and `cli.py`

Both compositions catch exceptions by class.  Python classes with the
same name live in different modules here: `validators.py` defines its own
`URLValidationError`/`URLReachabilityError`, distinct from the classes of
the same names in `exceptions.py` that `archive.py` and `cli.py` import,
and `browser_handler.py` defines its own `BrowserError` distinct from
`exceptions.BrowserError`.  The constructors below record the defining
module, because `except` clauses match by class identity. -/

/-- An in-flight Python exception, tagged with the module of its class. -/
inductive PyExc
  | vValidation (msg : Str)
  | vReachability (msg : Str)
  | domainBlocker (msg : Str)
  | svc (e : SvcErr)
  | bhBrowser (msg : Str)
  | excBrowser (msg : Str)

/-- The message carried by a `SvcErr`. -/
def svcMsg : SvcErr → Str
  | .notFound m | .unavailable m | .creation m | .service m => m

/-- The message carried by a `PyExc` (Python `str(e)`). -/
def excMsg : PyExc → Str
  | .vValidation m | .vReachability m | .domainBlocker m
  | .bhBrowser m | .excBrowser m => m
  | .svc e => svcMsg e

/-- Lift the exceptions of `validate_url_with_reachability` into `PyExc`. -/
def vErrToExc : VErr → PyExc
  | .validation m => .vValidation m
  | .reachability m => .vReachability m
  | .blockerErr m => .domainBlocker m

/-- The `try` body of `archive.archive_url`, over an abstract lookup
service (the single call `archive_service.get_latest_archive(url)` is the
application `lookup url` — note the original input `url`, not the value
returned by validation, which the source discards). -/
def archiveUrlBody (lookup : Str → Except SvcErr Str) (url : Str)
    (probe : HeadResult) (web : WebOutcome) : Except PyExc (Bool × Str) :=
  match validate_url_with_reachability url none probe with
  | .error e => .error (vErrToExc e)
  | .ok _valid =>
    match lookup url with
    | .error se => .error (.svc se)
    | .ok archived =>
      match open_url_in_browser archived web with
      | .error m => .error (.bhBrowser m)
      | .ok (success, message) =>
        if success then
          .ok (true, ("Successfully opened archived version: ".toList) ++ archived)
        else
          .error (.excBrowser (("Failed to open browser: ".toList) ++ message))

/-- The `except` ladder of `archive.archive_url`.  The first clause
catches `exceptions.URLValidationError`/`URLReachabilityError`, which no
raise site in the modelled code produces (the validators module raises
its own classes of those names); those therefore fall through to the
final `except Exception`, as do the `DomainBlockerError` and the
`browser_handler.BrowserError`. -/
def archiveHandler (e : PyExc) : Bool × Str :=
  match e with
  | .svc se => (false, svcMsg se)
  | .excBrowser m => (false, m)
  | other => (false, ("An unexpected error occurred: ".toList) ++ excMsg other)

/-- `archive.archive_url`: run the body, mapping every escaping exception
through the handler ladder. -/
def archive_url (lookup : Str → Except SvcErr Str) (url : Str)
    (probe : HeadResult) (web : WebOutcome) : Bool × Str :=
  match archiveUrlBody lookup url probe web with
  | .ok r => r
  | .error e => archiveHandler e

/-- The `except` ladder of `cli.main`, as exit codes.  As in
`archiveHandler`, the `URLValidationError`/`URLReachabilityError` clauses
refer to the `exceptions.py` classes, which nothing in the modelled code
raises, so validator errors reach the final `except Exception` (code 1);
the `ArchiveServiceError` subtree is matched before that, most specific
clause first as written in the source. -/
def mainHandler (e : PyExc) : Nat :=
  match e with
  | .svc (.notFound _) => 4
  | .svc (.unavailable _) => 5
  | .svc (.creation _) => 6
  | .svc (.service _) => 7
  | .excBrowser _ => 8
  | _other => 1

/-- `cli.main`, from successful argument parsing onward: the lookup is
applied to `validated_url`, the value validation returned. -/
def cliMain (lookup : Str → Except SvcErr Str) (url : Str)
    (probe : HeadResult) (web : WebOutcome) : Nat :=
  match validate_url_with_reachability url none probe with
  | .error e => mainHandler (vErrToExc e)
  | .ok validatedUrl =>
    match lookup validatedUrl with
    | .error se => mainHandler (.svc se)
    | .ok archiveUrl =>
      match open_url_in_browser archiveUrl web with
      | .error m => mainHandler (.bhBrowser m)
      | .ok (success, _message) => if success then 0 else 1

/-! ## Theorems for the claims -/

/-- C7: `check_url_reachability` maps each probe response status to
exactly one outcome: 200 to the final URL with `true`, 403 to the
access-forbidden error, 404 to the page-not-found error, every status of
at least 500 to the server error, and every other status to the
unexpected-status error carrying that code. -/
theorem C7_check_url_reachability_status_map :
    ∀ (status : Nat) (finalUrl : Str),
      (status = 200 →
        check_url_reachability (.resp status finalUrl) = .ok (finalUrl, true)) ∧
      (status = 403 →
        check_url_reachability (.resp status finalUrl)
          = .error ("Access forbidden".toList)) ∧
      (status = 404 →
        check_url_reachability (.resp status finalUrl)
          = .error ("Page not found".toList)) ∧
      (500 ≤ status →
        check_url_reachability (.resp status finalUrl)
          = .error ("Server error occurred".toList)) ∧
      (status ≠ 200 → status ≠ 403 → status ≠ 404 → status < 500 →
        check_url_reachability (.resp status finalUrl)
          = .error (("Unexpected status code: ".toList) ++ (Nat.repr status).toList)) := by
  intro status finalUrl
  refine ⟨?_, ?_, ?_, ?_, ?_⟩
  · intro h; subst h; rfl
  · intro h; subst h; rfl
  · intro h; subst h; rfl
  · intro h
    have h200 : ¬ status = 200 := by omega
    have h403 : ¬ status = 403 := by omega
    have h404 : ¬ status = 404 := by omega
    simp [check_url_reachability, h200, h403, h404, h]
  · intro h200 h403 h404 hlt
    have h5 : ¬ 500 ≤ status := by omega
    simp [check_url_reachability, h200, h403, h404, h5]

/-- Witness for C7 at the concrete statuses 503, 200, 404 and 301. -/
theorem C7_witness :
    check_url_reachability (.resp 503 ("http://x".toList))
        = .error ("Server error occurred".toList) ∧
      check_url_reachability (.resp 200 ("http://x".toList))
        = .ok (("http://x".toList), true) ∧
      check_url_reachability (.resp 404 ("http://x".toList))
        = .error ("Page not found".toList) ∧
      check_url_reachability (.resp 301 ("http://x".toList))
        = .error (("Unexpected status code: ".toList) ++ (Nat.repr 301).toList) :=
  ⟨(C7_check_url_reachability_status_map 503 ("http://x".toList)).2.2.2.1 (by omega),
   (C7_check_url_reachability_status_map 200 ("http://x".toList)).1 rfl,
   (C7_check_url_reachability_status_map 404 ("http://x".toList)).2.2.1 rfl,
   (C7_check_url_reachability_status_map 301 ("http://x".toList)).2.2.2.2
     (by omega) (by omega) (by omega) (by omega)⟩

/-- C3: `get_or_create_archive` turns a not-found lookup outcome into the
creation-not-implemented error, propagates every other lookup error kind
unchanged, and passes successful lookups through. -/
theorem C3_get_or_create_remaps_only_notFound :
    ∀ (url : Str) (r : HttpResult),
      (∀ m, get_latest_archive url r = .error (.notFound m) →
        get_or_create_archive url r = .error (.creation creationMsg)) ∧
      (∀ e, get_latest_archive url r = .error e → (∀ m, e ≠ .notFound m) →
        get_or_create_archive url r = .error e) ∧
      (∀ v, get_latest_archive url r = .ok v →
        get_or_create_archive url r = .ok v) := by
  intro url r
  refine ⟨?_, ?_, ?_⟩
  · intro m h; unfold get_or_create_archive; rw [h]
  · intro e h hne
    unfold get_or_create_archive
    rw [h]
    cases e with
    | notFound m => exact absurd rfl (hne m)
    | unavailable m => rfl
    | creation m => rfl
    | service m => rfl
  · intro v h; unfold get_or_create_archive; rw [h]

/-- Witness for C3: a 404 lookup response becomes the creation error, and
a 503 response keeps its service-unavailable kind. -/
theorem C3_witness :
    get_or_create_archive ("http://a.com".toList) (.resp 404 ("http://x".toList))
        = .error (.creation creationMsg) ∧
      get_or_create_archive ("http://a.com".toList) (.resp 503 ("http://x".toList))
        = .error (.unavailable
            ("Archive.is service is temporarily unavailable. Please try again later.".toList)) :=
  ⟨(C3_get_or_create_remaps_only_notFound ("http://a.com".toList)
      (.resp 404 ("http://x".toList))).1 ("No archived version found".toList) (by decide),
   (C3_get_or_create_remaps_only_notFound ("http://a.com".toList)
      (.resp 503 ("http://x".toList))).2.1 _ (by decide) (by intro m hcon; cases hcon)⟩

/-- C4: the composed validator checks well-formedness before the scheme:
a malformed string yields the message `Invalid URL format`, while a
well-formed string with a scheme other than http or https yields the
distinct message `URL must start with http:// or https://`; when both
checks fail the format message wins. -/
theorem C4_format_check_before_scheme_check :
    ∀ (url : Str) (blocker : Option (Finset Str)) (probe : HeadResult),
      (is_well_formed_url url = false →
        validate_url_with_reachability url blocker probe
          = .error (.validation ("Invalid URL format".toList))) ∧
      (is_well_formed_url url = true → is_valid_scheme url = false →
        validate_url_with_reachability url blocker probe
          = .error (.validation ("URL must start with http:// or https://".toList))) := by
  intro url blocker probe
  constructor
  · intro h; simp [validate_url_with_reachability, h]
  · intro h1 h2; simp [validate_url_with_reachability, h1, h2]

/-- Witness for C4: `notaurl` fails both checks and gets the format
message; `ftp://x.com` is well-formed but gets the scheme message. -/
theorem C4_witness :
    validate_url_with_reachability ("notaurl".toList) none .timeout
        = .error (.validation ("Invalid URL format".toList)) ∧
      is_well_formed_url ("ftp://x.com".toList) = true ∧
      validate_url_with_reachability ("ftp://x.com".toList) none .timeout
        = .error (.validation ("URL must start with http:// or https://".toList)) :=
  ⟨(C4_format_check_before_scheme_check ("notaurl".toList) none .timeout).1 (by decide),
   by decide,
   (C4_format_check_before_scheme_check ("ftp://x.com".toList) none .timeout).2
     (by decide) (by decide)⟩

/-- C8: saving a blocklist and loading the saved content into a fresh
blocklist yields exactly the union of the saved set and the default seed
set, and loading always adds the parsed domains to the existing set
rather than replacing it. -/
theorem C8_save_load_round_trip_additive :
    ∀ (s : Finset Str),
      load_config freshBlocker (save_config s) = s ∪ freshBlocker ∧
      ∀ (state file : Finset Str), state ⊆ load_config state file := by
  intro s
  constructor
  · simp [load_config, save_config, Finset.union_comm]
  · intro state file
    exact Finset.subset_union_left

/-- C9: removing a domain whose lowercased form is absent fails with the
not-in-list error and leaves the blocked-domain set unchanged. -/
theorem C9_remove_absent_fails_unchanged :
    ∀ (s : Finset Str) (d : Str), toLowerS d ∉ s →
      remove_blocked_domain s d
        = (some (("Domain ".toList) ++ d ++ (" is not in the blocked list".toList)), s) := by
  intro s d h
  simp [remove_blocked_domain, h]

/-- Witness for C9: removing `example.com` from a fresh blocklist. -/
theorem C9_witness :
    remove_blocked_domain freshBlocker ("example.com".toList)
      = (some (("Domain ".toList) ++ ("example.com".toList)
          ++ (" is not in the blocked list".toList)), freshBlocker) :=
  C9_remove_absent_fails_unchanged freshBlocker ("example.com".toList) (by decide)

/-- The spec phrase for the C1 classification, following its words: the
final response location "still lies on the archive service's host",
read as: the host (netloc) component of the location is the service host
`archive.is` taken from the base URL. -/
def liesOnArchiveHost (u : Str) : Bool :=
  match urlsplitE u with
  | .error _ => false
  | .ok (_, netloc) => netloc == ("archive.is".toList)

/-- C1 counterexample: for the final location
`https://evil.com/archive.is/a`, which contains the substring
`archive.is/` without lying on the host `archive.is`, the code returns
`Ok` although the claimed host-based condition is false, so the claimed
equivalence fails at this input. -/
theorem C1_counterexample :
    ¬ (get_latest_archive ("http://e.com".toList)
          (.resp 200 ("https://evil.com/archive.is/a".toList))
        = .ok ("https://evil.com/archive.is/a".toList)
      ↔ (("https://evil.com/archive.is/a".toList)
            ≠ construct_search_url ("http://e.com".toList)
          ∧ liesOnArchiveHost ("https://evil.com/archive.is/a".toList) = true)) := by
  decide

/-- C1 amended: on HTTP 200, `get_latest_archive` returns `Ok` with the
final response location exactly when that location differs from the
constructed search URL and contains `archive.is/` as a substring (a
textual check, not a check that its host component is the service host);
when the final location equals the search URL it returns the not-found
error. -/
theorem C1_amended_archive_found_classification :
    ∀ (url finalUrl : Str),
      (get_latest_archive url (.resp 200 finalUrl) = .ok finalUrl ↔
        (finalUrl ≠ construct_search_url url
          ∧ isSubstr ("archive.is/".toList) finalUrl = true)) ∧
      (finalUrl = construct_search_url url →
        get_latest_archive url (.resp 200 finalUrl)
          = .error (.notFound ("No archived version found".toList))) := by
  intro url finalUrl
  by_cases hs : isSubstr ("archive.is/".toList) finalUrl = true <;>
    by_cases he : finalUrl = construct_search_url url <;>
      simp [get_latest_archive, hs, he]

/-- Witness for C1 at concrete inputs: a redirect to an archive page is
`Ok`, and a final location equal to the search URL is not-found. -/
theorem C1_witness :
    get_latest_archive ("http://e.com".toList)
        (.resp 200 ("https://archive.is/abc123".toList))
      = .ok ("https://archive.is/abc123".toList) ∧
      get_latest_archive ("http://e.com".toList)
        (.resp 200 (construct_search_url ("http://e.com".toList)))
      = .error (.notFound ("No archived version found".toList)) :=
  ⟨(C1_amended_archive_found_classification ("http://e.com".toList)
      ("https://archive.is/abc123".toList)).1.mpr ⟨by decide, by decide⟩,
   (C1_amended_archive_found_classification ("http://e.com".toList)
      (construct_search_url ("http://e.com".toList))).2 rfl⟩

/-- C6 counterexample: `http://` has an empty authority component, yet
`is_domain_blocked` returns the boolean `false` instead of failing. -/
theorem C6_counterexample :
    urlsplitE ("http://".toList) = .ok (("http".toList), ([] : Str)) ∧
      is_domain_blocked DEFAULT_BLOCKED_DOMAINS ("http://".toList) = .ok false := by
  decide

/-- C6 amended: for every input string whose authority component is
empty, `is_domain_blocked` returns `false` (the empty host contains no
blocklist entry) rather than failing; the parse-error path exists only
for inputs on which `urlparse` itself raises. -/
theorem C6_amended_empty_host_returns_false :
    ∀ (url scheme : Str), urlsplitE url = .ok (scheme, ([] : Str)) →
      is_domain_blocked DEFAULT_BLOCKED_DOMAINS url = .ok false := by
  intro url scheme h
  unfold is_domain_blocked
  rw [h]
  rfl

/-- Witness for C6 at the concrete input `http://`. -/
theorem C6_witness :
    is_domain_blocked DEFAULT_BLOCKED_DOMAINS ("http://".toList) = .ok false :=
  C6_amended_empty_host_returns_false ("http://".toList) ("http".toList) (by decide)

/-- A successful run of the `archive_url` try body can only be the
success pair naming the archived URL it opened. -/
lemma archiveUrlBody_ok_shape (lookup : Str → Except SvcErr Str) (url : Str)
    (probe : HeadResult) (web : WebOutcome) (r : Bool × Str)
    (h : archiveUrlBody lookup url probe web = .ok r) :
    ∃ a, r = (true, ("Successfully opened archived version: ".toList) ++ a) := by
  unfold archiveUrlBody at h
  rcases hv : validate_url_with_reachability url none probe with e | v <;> rw [hv] at h
  · simp at h
  · simp only [] at h
    rcases hl : lookup url with se | archived <;> rw [hl] at h
    · simp at h
    · simp only [] at h
      rcases hw : open_url_in_browser archived web with m | p <;> rw [hw] at h
      · simp at h
      · simp only [] at h
        obtain ⟨success, message⟩ := p
        cases success
        · simp at h
        · simp at h
          exact ⟨archived, h.symm⟩

/-- C10: `archive_url` is total over every collaborator outcome: it
always returns a pair, the only `true` results carry the success message,
and the exception handler ladder maps every escaping exception to a
`false` result, so no exception propagates to the caller. -/
theorem C10_archive_url_total :
    ∀ (lookup : Str → Except SvcErr Str) (url : Str) (probe : HeadResult)
      (web : WebOutcome),
      ((archive_url lookup url probe web).1 = false ∨
        ∃ a, archive_url lookup url probe web
          = (true, ("Successfully opened archived version: ".toList) ++ a)) ∧
      ∀ (e : PyExc), (archiveHandler e).1 = false := by
  intro lookup url probe web
  constructor
  · cases hbody : archiveUrlBody lookup url probe web with
    | error e =>
      left
      simp only [archive_url, hbody]
      cases e with
      | svc se => rfl
      | excBrowser m => rfl
      | vValidation m => rfl
      | vReachability m => rfl
      | domainBlocker m => rfl
      | bhBrowser m => rfl
    | ok r =>
      right
      obtain ⟨a, ha⟩ := archiveUrlBody_ok_shape lookup url probe web r hbody
      exact ⟨a, by simp only [archive_url, hbody, ha]⟩
  · intro e
    cases e with
    | svc se => rfl
    | excBrowser m => rfl
    | vValidation m => rfl
    | vReachability m => rfl
    | domainBlocker m => rfl
    | bhBrowser m => rfl

/-- A lookup service that has an archive only for `http://a.com`. -/
def lookupOnlyOriginal : Str → Except SvcErr Str := fun u =>
  if u = ("http://a.com".toList)
  then .ok ("https://archive.is/x".toList)
  else .error (.notFound ("No archived version found".toList))

/-- A lookup service that never finds an archive. -/
def lookupNever : Str → Except SvcErr Str := fun _ =>
  .error (.notFound ("No archived version found".toList))

/-- C2 counterexample: the probe redirects `http://a.com` to
`http://b.com/`, so validation returns `http://b.com/`; the two lookup
services agree on that final URL, yet `archive_url` distinguishes them,
because it passes the original input URL to the lookup client. -/
theorem C2_counterexample :
    validate_url_with_reachability ("http://a.com".toList) none
        (.resp 200 ("http://b.com/".toList)) = .ok ("http://b.com/".toList) ∧
      lookupOnlyOriginal ("http://b.com/".toList)
        = lookupNever ("http://b.com/".toList) ∧
      archive_url lookupOnlyOriginal ("http://a.com".toList)
          (.resp 200 ("http://b.com/".toList)) .opened
        ≠ archive_url lookupNever ("http://a.com".toList)
          (.resp 200 ("http://b.com/".toList)) .opened := by
  decide

/-- A successful reachability check reports `true` alongside the final
URL. -/
lemma check_ok_snd_true (probe : HeadResult) (f : Str) (b : Bool)
    (h : check_url_reachability probe = .ok (f, b)) : b = true := by
  unfold check_url_reachability at h
  cases probe with
  | resp status finalUrl =>
    simp only [] at h
    split_ifs at h <;> simp_all
  | timeout => simp at h
  | redirects => simp at h
  | ssl => simp at h
  | reqFail m => simp at h

/-- A successful reach step returns exactly the final URL of the
reachability check. -/
lemma reachStep_ok (probe : HeadResult) (v : Str)
    (h : reachStep probe = .ok v) :
    check_url_reachability probe = .ok (v, true) := by
  unfold reachStep at h
  rcases hc : check_url_reachability probe with m | p
  · rw [hc] at h
    simp at h
  · rw [hc] at h
    obtain ⟨f, rb⟩ := p
    simp only [] at h
    simp at h
    have hb := check_ok_snd_true probe f rb hc
    simp_all

/-- C2 amended: the validation pipeline returns the post-redirect final
URL produced by the reachability check, and `cli.main` passes that final
URL to the lookup client; `archive.archive_url`, however, discards the
validated value and passes the original input URL to the lookup client. -/
theorem C2_amended_final_url_propagation :
    (∀ (url : Str) (blocker : Option (Finset Str)) (probe : HeadResult) (v : Str),
      validate_url_with_reachability url blocker probe = .ok v →
      check_url_reachability probe = .ok (v, true)) ∧
    (∀ (lookup lookup2 : Str → Except SvcErr Str) (url : Str)
        (probe : HeadResult) (web : WebOutcome) (v : Str),
      validate_url_with_reachability url none probe = .ok v →
      lookup v = lookup2 v →
      cliMain lookup url probe web = cliMain lookup2 url probe web) ∧
    (∀ (lookup lookup2 : Str → Except SvcErr Str) (url : Str)
        (probe : HeadResult) (web : WebOutcome),
      lookup url = lookup2 url →
      archive_url lookup url probe web = archive_url lookup2 url probe web) := by
  refine ⟨?_, ?_, ?_⟩
  · intro url blocker probe v h
    unfold validate_url_with_reachability at h
    split_ifs at h
    rcases hb : blockStep blocker url with e | u <;> rw [hb] at h
    · simp at h
    · simp only [] at h
      exact reachStep_ok probe v h
  · intro lookup lookup2 url probe web v h hagree
    unfold cliMain
    rw [h]
    simp only []
    rw [hagree]
  · intro lookup lookup2 url probe web hagree
    unfold archive_url archiveUrlBody
    rw [hagree]

/-- Witness for C2 at concrete inputs: the validator reports the
redirected URL, and the two composition facts applied to concrete lookup
services. -/
theorem C2_witness :
    check_url_reachability (.resp 200 ("http://b.com/".toList))
        = .ok (("http://b.com/".toList), true) ∧
      cliMain lookupOnlyOriginal ("http://a.com".toList)
          (.resp 200 ("http://b.com/".toList)) .opened
        = cliMain lookupNever ("http://a.com".toList)
          (.resp 200 ("http://b.com/".toList)) .opened ∧
      archive_url lookupNever ("http://c.com".toList)
          (.resp 200 ("http://c.com".toList)) .opened
        = archive_url lookupOnlyOriginal ("http://c.com".toList)
          (.resp 200 ("http://c.com".toList)) .opened :=
  ⟨C2_amended_final_url_propagation.1 ("http://a.com".toList) none
      (.resp 200 ("http://b.com/".toList)) ("http://b.com/".toList) (by decide),
   C2_amended_final_url_propagation.2.1 lookupOnlyOriginal lookupNever
      ("http://a.com".toList) (.resp 200 ("http://b.com/".toList)) .opened
      ("http://b.com/".toList) (by decide) (by decide),
   C2_amended_final_url_propagation.2.2 lookupNever lookupOnlyOriginal
      ("http://c.com".toList) (.resp 200 ("http://c.com".toList)) .opened (by decide)⟩

/-- A string starts with `www.` exactly when it has that literal
four-character shape. -/
lemma startsWith_www_iff (n : Str) :
    startsWithL ("www.".toList) n = true ↔
      ∃ t, n = 'w' :: 'w' :: 'w' :: '.' :: t := by
  constructor
  · intro h
    match n with
    | [] => simp [startsWithL] at h
    | [c1] => simp [startsWithL] at h
    | [c1, c2] => simp [startsWithL] at h
    | [c1, c2, c3] => simp [startsWithL] at h
    | c1 :: c2 :: c3 :: c4 :: t =>
      simp [startsWithL] at h
      obtain ⟨h1, h2, h3, h4⟩ := h
      subst h1; subst h2; subst h3; subst h4
      exact ⟨t, rfl⟩
  · rintro ⟨t, rfl⟩
    rfl

/-- A non-empty needle whose head differs from the head of the haystack
occurs in the tail exactly when it occurs in the whole. -/
lemma isSubstr_cons_ne (hd : Char) (tl : Str) (c : Char) (s : Str)
    (h : (hd == c) = false) :
    isSubstr (hd :: tl) (c :: s) = isSubstr (hd :: tl) s := by
  simp [isSubstr, startsWithL, h]

/-- A needle starting with a character other than `w` and `.` ignores a
leading `www.` in the haystack. -/
lemma isSubstr_drop_www (hd : Char) (tl t : Str)
    (hw : (hd == 'w') = false) (hp : (hd == '.') = false) :
    isSubstr (hd :: tl) ('w' :: 'w' :: 'w' :: '.' :: t) = isSubstr (hd :: tl) t := by
  rw [isSubstr_cons_ne hd tl 'w' _ hw, isSubstr_cons_ne hd tl 'w' _ hw,
    isSubstr_cons_ne hd tl 'w' _ hw, isSubstr_cons_ne hd tl '.' _ hp]

/-- None of the default blocked domains can straddle or lie inside a
leading `www.`, so that prefix never affects the match. -/
lemma defaults_ignore_www (t : Str) :
    (∃ e ∈ DEFAULT_BLOCKED_DOMAINS, isSubstr e ('w' :: 'w' :: 'w' :: '.' :: t) = true) ↔
      (∃ e ∈ DEFAULT_BLOCKED_DOMAINS, isSubstr e t = true) := by
  have key : ∀ e ∈ DEFAULT_BLOCKED_DOMAINS,
      isSubstr e ('w' :: 'w' :: 'w' :: '.' :: t) = isSubstr e t := by
    intro e he
    simp only [DEFAULT_BLOCKED_DOMAINS, List.mem_toFinset, List.mem_cons,
      List.not_mem_nil, or_false] at he
    rcases he with rfl | rfl | rfl | rfl | rfl | rfl
    · rw [show ("facebook.com".toList) = 'f' :: ("acebook.com".toList) from rfl]
      exact isSubstr_drop_www 'f' _ t (by decide) (by decide)
    · rw [show ("twitter.com".toList) = 't' :: ("witter.com".toList) from rfl]
      exact isSubstr_drop_www 't' _ t (by decide) (by decide)
    · rw [show ("instagram.com".toList) = 'i' :: ("nstagram.com".toList) from rfl]
      exact isSubstr_drop_www 'i' _ t (by decide) (by decide)
    · rw [show ("linkedin.com".toList) = 'l' :: ("inkedin.com".toList) from rfl]
      exact isSubstr_drop_www 'l' _ t (by decide) (by decide)
    · rw [show ("accounts.google.com".toList) = 'a' :: ("ccounts.google.com".toList) from rfl]
      exact isSubstr_drop_www 'a' _ t (by decide) (by decide)
    · rw [show ("login.yahoo.com".toList) = 'l' :: ("ogin.yahoo.com".toList) from rfl]
      exact isSubstr_drop_www 'l' _ t (by decide) (by decide)
  constructor
  · rintro ⟨e, he, hs⟩
    exact ⟨e, he, (key e he).symm.trans hs⟩
  · rintro ⟨e, he, hs⟩
    exact ⟨e, he, (key e he).trans hs⟩

/-- Against the default blocklist, stripping `www.` after lowercasing
(what the code does) matches the same hosts as stripping the literal
`www.` first and lowercasing afterwards (the claimed order). -/
lemma defaults_strip_lower_order (n : Str) :
    (∃ e ∈ DEFAULT_BLOCKED_DOMAINS,
        isSubstr e (if startsWithL ("www.".toList) (toLowerS n)
                    then (toLowerS n).drop 4 else toLowerS n) = true) ↔
      (∃ e ∈ DEFAULT_BLOCKED_DOMAINS,
        isSubstr e (toLowerS (if startsWithL ("www.".toList) n
                    then n.drop 4 else n)) = true) := by
  by_cases h1 : startsWithL ("www.".toList) n = true
  · obtain ⟨t, rfl⟩ := (startsWith_www_iff n).mp h1
    have hlow : toLowerS ('w' :: 'w' :: 'w' :: '.' :: t)
        = 'w' :: 'w' :: 'w' :: '.' :: toLowerS t := rfl
    rw [hlow]
    rw [if_pos (by rfl), if_pos h1]
    simp
  · by_cases h2 : startsWithL ("www.".toList) (toLowerS n) = true
    · obtain ⟨t, hlow⟩ := (startsWith_www_iff (toLowerS n)).mp h2
      rw [hlow, if_pos (by rfl), if_neg (by simpa using h1), hlow]
      simp only [List.drop_succ_cons, List.drop_zero]
      exact (defaults_ignore_www t).symm
    · rw [if_neg (by simpa using h2), if_neg (by simpa using h1)]

/-- C5: for every URL with an extractable host, `is_domain_blocked`
against the default blocklist returns true exactly when some default
entry is a substring of the host stripped of a leading literal `www.`
and lowercased; in particular the two Facebook examples are blocked and
`https://example.com` is not. -/
theorem C5_is_domain_blocked_substring_semantics :
    (∀ (url scheme netloc : Str),
      urlsplitE url = .ok (scheme, netloc) → netloc ≠ [] →
      is_domain_blocked DEFAULT_BLOCKED_DOMAINS url
        = .ok (decide (∃ e ∈ DEFAULT_BLOCKED_DOMAINS,
            isSubstr e (toLowerS (if startsWithL ("www.".toList) netloc
                        then netloc.drop 4 else netloc)) = true))) ∧
      is_domain_blocked DEFAULT_BLOCKED_DOMAINS
        ("https://www.facebook.com/x".toList) = .ok true ∧
      is_domain_blocked DEFAULT_BLOCKED_DOMAINS
        ("http://facebook.com".toList) = .ok true ∧
      is_domain_blocked DEFAULT_BLOCKED_DOMAINS
        ("https://example.com".toList) = .ok false := by
  refine ⟨?_, by decide, by decide, by decide⟩
  intro url scheme netloc h _hne
  unfold is_domain_blocked
  rw [h]
  simp only []
  congr 1
  exact decide_eq_decide.mpr (defaults_strip_lower_order netloc)

/-- Witness for C5: the general clause applied to the host of
`http://WWW.Facebook.com/p`, whose uppercase `WWW.` the literal strip
leaves in place. -/
theorem C5_witness :
    is_domain_blocked DEFAULT_BLOCKED_DOMAINS ("http://WWW.Facebook.com/p".toList)
      = .ok (decide (∃ e ∈ DEFAULT_BLOCKED_DOMAINS,
          isSubstr e (toLowerS (if startsWithL ("www.".toList) ("WWW.Facebook.com".toList)
                      then ("WWW.Facebook.com".toList).drop 4
                      else ("WWW.Facebook.com".toList))) = true)) :=
  C5_is_domain_blocked_substring_semantics.1 ("http://WWW.Facebook.com/p".toList)
    ("http".toList) ("WWW.Facebook.com".toList) (by decide) (by decide)

end ArchiveCli
